import Mathlib

/-!
# Verification of the sprite-processor spritesheet pipeline

A shallow embedding of the frame-grid / slicing / dispatch / assembly logic of
the `image-processor` repository, together with theorems settling the frozen
claims about it.

The frontend (TypeScript/React) is embedded directly from the sources under
`src/`.  The FastAPI backend (grid resolution, model dispatch, spritesheet
assembly) is not part of the shipped sources; where a claim depends on it,
the missing component is modelled from the specification text and the
definition's doc comment says so explicitly.

Conventions:
* JavaScript numbers holding pixel dimensions and indices are embedded as
  `ℕ`/`ℤ`; the floating-point divisions `img.width / cols` performed by the
  frontend are embedded as exact rational arithmetic (`ℚ`) with explicit
  `Int.floor` where the source calls `Math.floor` — exact for the integral
  values these quantities take in every claim considered here.
* Pixels are abstract codes in `ℕ`, with `0` the fully transparent pixel.
-/

/-- A frame grid, as the frontend's `gridConfig: { rows, cols }` object
(`SpritesheetAnimator.tsx`, `GridConfig` component). -/
structure GridCfg where
  rows : ℕ
  cols : ℕ
deriving Repr, DecidableEq

/-- `maxFrames` from `SpritesheetAnimator.tsx` lines 40–43:
`Math.min(Math.max(frames ?? 0, 0), rows * cols)`.  The `frames` prop is a JS
number, embedded as `ℤ` so that the `Math.max(·, 0)` clamp is visible. -/
def maxFrames (cfg : GridCfg) (frames : ℤ) : ℤ :=
  min (max frames 0) ((cfg.rows : ℤ) * (cfg.cols : ℤ))

/-- A source-rectangle crop, as passed to `ctx.drawImage(img, sx, sy, w, h, …)`
in `extractFrames` (`SpritesheetAnimator.tsx` lines 94–98). -/
structure CropRect where
  sx : ℤ
  sy : ℤ
  w : ℤ
  h : ℤ
deriving Repr, DecidableEq

/-- `frameWidth = img.width / gridConfig.cols` (line 85), exact division in ℚ. -/
def frameWidthQ (W : ℕ) (cfg : GridCfg) : ℚ := (W : ℚ) / (cfg.cols : ℚ)

/-- `frameHeight = img.height / gridConfig.rows` (line 86), exact division in ℚ. -/
def frameHeightQ (H : ℕ) (cfg : GridCfg) : ℚ := (H : ℚ) / (cfg.rows : ℚ)

/-- The crop rectangle computed for loop index `i` in `extractFrames`
(`SpritesheetAnimator.tsx` lines 92–98):
`row = Math.floor(i / cols)`, `col = i % cols`,
`sx = Math.floor(col * frameWidth)`, `sy = Math.floor(row * frameHeight)`,
crop size `(Math.floor(frameWidth), Math.floor(frameHeight))`. -/
def extractFrameRect (W H : ℕ) (cfg : GridCfg) (i : ℕ) : CropRect :=
  let fw := frameWidthQ W cfg
  let fh := frameHeightQ H cfg
  let row := i / cfg.cols
  let col := i % cfg.cols
  { sx := ⌊(col : ℚ) * fw⌋
    sy := ⌊(row : ℚ) * fh⌋
    w := ⌊fw⌋
    h := ⌊fh⌋ }

/-- The ordered sequence of crop rectangles produced by the
`for (let i = 0; i < maxFrames; i++)` loop of `extractFrames`
(`SpritesheetAnimator.tsx` lines 91–105). -/
def extractFrames (W H : ℕ) (cfg : GridCfg) (frames : ℤ) : List CropRect :=
  (List.range (maxFrames cfg frames).toNat).map (extractFrameRect W H cfg)

/-- When `cols` divides `W` exactly, the rational frame width is the natural
number `W / cols` and the floored column offset is exact. -/
lemma floor_col_offset (c k m : ℕ) (hm : 0 < m) :
    ⌊(c : ℚ) * ((m * k : ℕ) : ℚ) / (m : ℚ)⌋ = (c * k : ℕ) := by
  have hm' : (m : ℚ) ≠ 0 := by exact_mod_cast hm.ne'
  push_cast
  rw [mul_comm (m : ℚ) (k : ℚ), mul_div_assoc, mul_div_cancel_right₀ _ hm']
  exact_mod_cast Int.floor_natCast (c * k)

/-- The `GridConfig` frames input handler (`GridConfig` component, line 69):
`onFramesChange(Math.min(parseInt(e.target.value) || 1, totalFrames))`.
`parseInt` yielding `NaN` is embedded as `none`; `NaN` and `0` are both falsy,
so `|| 1` replaces them by `1`. -/
def gridConfigFramesChange (totalFrames : ℕ) (v : Option ℕ) : ℕ :=
  min (match v with | none => 1 | some 0 => 1 | some n => n) totalFrames

/-- When `m` divides evenly, the rational frame dimension is the exact natural
quotient. -/
lemma ratio_eq_of_dvd (m k : ℕ) (hm : 0 < m) :
    ((m * k : ℕ) : ℚ) / (m : ℚ) = (k : ℚ) := by
  have hm' : (m : ℚ) ≠ 0 := by exact_mod_cast hm.ne'
  push_cast
  rw [mul_comm]
  exact mul_div_cancel_right₀ _ hm'

/-- On an evenly dividing grid, the crop rectangle of frame `i` is the
row-major tile `(row, col) = (i / cols, i % cols)` at integral offsets. -/
lemma extractFrameRect_of_dvd (W H : ℕ) (cfg : GridCfg) (i : ℕ)
    (hc : 0 < cfg.cols) (hr : 0 < cfg.rows)
    (hW : cfg.cols ∣ W) (hH : cfg.rows ∣ H) :
    extractFrameRect W H cfg i =
      { sx := ((i % cfg.cols) * (W / cfg.cols) : ℕ)
        sy := ((i / cfg.cols) * (H / cfg.rows) : ℕ)
        w := (W / cfg.cols : ℕ)
        h := (H / cfg.rows : ℕ) } := by
  obtain ⟨kw, hkw⟩ := hW
  obtain ⟨kh, hkh⟩ := hH
  subst hkw hkh
  simp only [extractFrameRect, frameWidthQ, frameHeightQ]
  rw [ratio_eq_of_dvd _ _ hc, ratio_eq_of_dvd _ _ hr,
    Nat.mul_div_cancel_left _ hc, Nat.mul_div_cancel_left _ hr]
  simp only [CropRect.mk.injEq]
  refine ⟨?_, ?_, ?_, ?_⟩
  · rw [← Nat.cast_mul, Int.floor_natCast]
  · rw [← Nat.cast_mul, Int.floor_natCast]
  · exact Int.floor_natCast _
  · exact Int.floor_natCast _

/-- C1: for every valid grid (`cols > 0`, `rows > 0`, dividing the sheet
evenly) and every produced frame index `i`, the frame is the tile at
`row = i / cols`, `col = i % cols`, cropped at pixel offset
`(col * (W / cols), row * (H / rows))` with size `(W / cols, H / rows)`,
and `row * cols + col = i`. -/
theorem extractFrames_rowMajor_geometry (W H : ℕ) (cfg : GridCfg) (frames : ℤ)
    (i : ℕ) (hc : 0 < cfg.cols) (hr : 0 < cfg.rows)
    (hW : cfg.cols ∣ W) (hH : cfg.rows ∣ H)
    (hi : i < (maxFrames cfg frames).toNat) :
    (extractFrames W H cfg frames)[i]? =
      some { sx := ((i % cfg.cols) * (W / cfg.cols) : ℕ)
             sy := ((i / cfg.cols) * (H / cfg.rows) : ℕ)
             w := (W / cfg.cols : ℕ)
             h := (H / cfg.rows : ℕ) } ∧
    (i / cfg.cols) * cfg.cols + (i % cfg.cols) = i := by
  constructor
  · rw [extractFrames, List.getElem?_map, List.getElem?_range hi,
      Option.map_some']
    rw [extractFrameRect_of_dvd W H cfg i hc hr hW hH]
  · rw [Nat.mul_comm]
    exact Nat.div_add_mod i cfg.cols

/-- Concrete instance of `extractFrames_rowMajor_geometry`: a `320×128` sheet
on a `5×2` grid, frame 7 is the tile at row 1, col 2, offset `(128, 64)`,
size `64×64`. -/
theorem extractFrames_rowMajor_geometry_witness :
    0 < (5 : ℕ) ∧ 0 < (2 : ℕ) ∧ 5 ∣ 320 ∧ 2 ∣ 128 ∧
      7 < (maxFrames ⟨2, 5⟩ 10).toNat ∧
      ((extractFrames 320 128 ⟨2, 5⟩ 10)[7]? =
          some { sx := 128, sy := 64, w := 64, h := 64 } ∧
        (7 / 5) * 5 + 7 % 5 = 7) :=
  ⟨by decide, by decide, by decide, by decide, by decide, by
    simpa using extractFrames_rowMajor_geometry 320 128 ⟨2, 5⟩ 10 7
      (by decide) (by decide) (by decide) (by decide) (by decide)⟩

/-- `extractFrameRect` in pure integer arithmetic: each floored rational
offset is the floor division of the corresponding natural product.  (Holds
also for a zero `cols`/`rows`, where both sides degenerate to `0`.) -/
lemma extractFrameRect_eval (W H : ℕ) (cfg : GridCfg) (i : ℕ) :
    extractFrameRect W H cfg i =
      { sx := ((i % cfg.cols * W / cfg.cols : ℕ) : ℤ)
        sy := ((i / cfg.cols * H / cfg.rows : ℕ) : ℤ)
        w := ((W / cfg.cols : ℕ) : ℤ)
        h := ((H / cfg.rows : ℕ) : ℤ) } := by
  simp only [extractFrameRect, frameWidthQ, frameHeightQ, CropRect.mk.injEq]
  refine ⟨?_, ?_, ?_, ?_⟩
  · rw [← mul_div_assoc, ← Nat.cast_mul, Rat.floor_natCast_div_natCast,
      Int.ofNat_ediv]
  · rw [← mul_div_assoc, ← Nat.cast_mul, Rat.floor_natCast_div_natCast,
      Int.ofNat_ediv]
  · rw [Rat.floor_natCast_div_natCast, Int.ofNat_ediv]
  · rw [Rat.floor_natCast_div_natCast, Int.ofNat_ediv]

/-- `extractFrames` in pure integer arithmetic, for concrete evaluation. -/
lemma extractFrames_eval (W H : ℕ) (cfg : GridCfg) (n : ℤ) :
    extractFrames W H cfg n =
      (List.range (maxFrames cfg n).toNat).map fun i =>
        ({ sx := ((i % cfg.cols * W / cfg.cols : ℕ) : ℤ)
           sy := ((i / cfg.cols * H / cfg.rows : ℕ) : ℤ)
           w := ((W / cfg.cols : ℕ) : ℤ)
           h := ((H / cfg.rows : ℕ) : ℤ) } : CropRect) := by
  unfold extractFrames
  exact List.map_congr_left fun i _ => extractFrameRect_eval W H cfg i

/-- C4 counterexample: with grid `2×2` and frames hint `5 > 4 = cols*rows`,
the frontend does not fail — `maxFrames` clamps the hint to `4`, slicing
proceeds exactly as if `4` had been requested, and the `GridConfig` input
handler likewise clamps an entered `5` to `4`. -/
theorem framesHint_clamped_not_error_counterexample :
    maxFrames ⟨2, 2⟩ 5 = 4 ∧
    (extractFrames 64 64 ⟨2, 2⟩ 5).length = 4 ∧
    extractFrames 64 64 ⟨2, 2⟩ 5 = extractFrames 64 64 ⟨2, 2⟩ 4 ∧
    gridConfigFramesChange 4 (some 5) = 4 := by
  simp only [extractFrames_eval]
  decide

/-- C4 amended: a frames hint strictly greater than `cols*rows` is not a
validation error; both cited code sites clamp it to `cols*rows` and slicing
proceeds with the reduced frame count. -/
theorem framesHint_gt_total_is_clamped (W H : ℕ) (cfg : GridCfg) (f : ℤ)
    (n : ℕ) (hf : (cfg.rows : ℤ) * (cfg.cols : ℤ) < f)
    (hn : cfg.rows * cfg.cols < n) :
    maxFrames cfg f = (cfg.rows : ℤ) * (cfg.cols : ℤ) ∧
    extractFrames W H cfg f =
      extractFrames W H cfg ((cfg.rows : ℤ) * (cfg.cols : ℤ)) ∧
    (extractFrames W H cfg f).length = cfg.rows * cfg.cols ∧
    gridConfigFramesChange (cfg.rows * cfg.cols) (some n) =
      cfg.rows * cfg.cols := by
  have hmax : maxFrames cfg f = (cfg.rows : ℤ) * (cfg.cols : ℤ) := by
    simp only [maxFrames]
    omega
  have hmax' : maxFrames cfg ((cfg.rows : ℤ) * (cfg.cols : ℤ)) =
      (cfg.rows : ℤ) * (cfg.cols : ℤ) := by
    simp only [maxFrames]
    omega
  refine ⟨hmax, ?_, ?_, ?_⟩
  · rw [extractFrames, extractFrames, hmax, hmax']
  · rw [extractFrames, List.length_map, List.length_range, hmax,
      ← Nat.cast_mul, Int.toNat_natCast]
  · match n, hn with
    | Nat.succ m, _ =>
      simp only [gridConfigFramesChange]
      omega

/-- Concrete instance of `framesHint_gt_total_is_clamped` at grid `2×2`,
hint `5`, sheet `64×64`. -/
theorem framesHint_gt_total_is_clamped_witness :
    ((2 : ℤ) * 2 < 5 ∧ 2 * 2 < 5) ∧
    (maxFrames ⟨2, 2⟩ 5 = (2 : ℤ) * 2 ∧
      extractFrames 64 64 ⟨2, 2⟩ 5 = extractFrames 64 64 ⟨2, 2⟩ ((2 : ℤ) * 2) ∧
      (extractFrames 64 64 ⟨2, 2⟩ 5).length = 2 * 2 ∧
      gridConfigFramesChange (2 * 2) (some 5) = 2 * 2) :=
  ⟨⟨by decide, by decide⟩, by
    simpa using framesHint_gt_total_is_clamped 64 64 ⟨2, 2⟩ 5 5
      (by decide) (by decide)⟩

/-- C5: a frames hint `f` with `0 < f < cols*rows` is not an error — slicing
produces exactly `f` frames, they are the first `f` tiles of the full
row-major sequence, and the remaining `cols*rows - f` tiles are ignored. -/
theorem extractFrames_partial_prefix (W H : ℕ) (cfg : GridCfg) (f : ℕ)
    (hf : 0 < f) (hlt : f < cfg.rows * cfg.cols) :
    (extractFrames W H cfg (f : ℤ)).length = f ∧
    extractFrames W H cfg (f : ℤ) = (List.range f).map (extractFrameRect W H cfg) ∧
    extractFrames W H cfg (f : ℤ) =
      (extractFrames W H cfg ((cfg.rows * cfg.cols : ℕ) : ℤ)).take f := by
  have hmax : (maxFrames cfg (f : ℤ)).toNat = f := by
    simp only [maxFrames]
    omega
  have hmax' : (maxFrames cfg ((cfg.rows * cfg.cols : ℕ) : ℤ)).toNat =
      cfg.rows * cfg.cols := by
    simp only [maxFrames]
    push_cast
    omega
  refine ⟨?_, ?_, ?_⟩
  · rw [extractFrames, List.length_map, List.length_range, hmax]
  · rw [extractFrames, hmax]
  · rw [extractFrames, extractFrames, hmax, hmax', ← List.map_take,
      List.take_range, Nat.min_eq_left hlt.le]

/-- Concrete instance of `extractFrames_partial_prefix`: grid `5×2`, hint `6`
on a `320×128` sheet yields exactly the first 6 row-major tiles. -/
theorem extractFrames_partial_prefix_witness :
    (0 < 6 ∧ 6 < 2 * 5) ∧
    ((extractFrames 320 128 ⟨2, 5⟩ (6 : ℕ)).length = 6 ∧
      extractFrames 320 128 ⟨2, 5⟩ (6 : ℕ) =
        (List.range 6).map (extractFrameRect 320 128 ⟨2, 5⟩) ∧
      extractFrames 320 128 ⟨2, 5⟩ (6 : ℕ) =
        (extractFrames 320 128 ⟨2, 5⟩ ((2 * 5 : ℕ) : ℤ)).take 6) :=
  ⟨⟨by decide, by decide⟩,
    extractFrames_partial_prefix 320 128 ⟨2, 5⟩ 6 (by decide) (by decide)⟩

/-- A raster image: pixel dimensions and a pixel lookup.  Pixels are abstract
codes in `ℕ`, with `0` the fully transparent pixel. -/
structure Img where
  width : ℕ
  height : ℕ
  pix : ℕ → ℕ → ℕ

/-- The source crop performed by
`ctx.drawImage(img, sx, sy, w, h, 0, 0, w, h)` in `extractFrames`
(`SpritesheetAnimator.tsx` line 98): pixel `(u, v)` of the crop is pixel
`(sx + u, sy + v)` of the source. -/
def cropAt (img : Img) (r : CropRect) : Img :=
  { width := r.w.toNat
    height := r.h.toNat
    pix := fun u v => img.pix (r.sx.toNat + u) (r.sy.toNat + v) }

/-- The ordered list of frame images sliced from a spritesheet, following the
`extractFrames` loop. -/
def sliceFrames (img : Img) (cfg : GridCfg) (n : ℤ) : List Img :=
  (extractFrames img.width img.height cfg n).map (cropAt img)

/-- Modelled from the spec: the `SpritesheetAssembler` lives in the FastAPI
backend, which is not among the shipped sources.  Per §4.4 it produces a
`(cols*frame_width) × (rows*frame_height)` composite placing frame `i` at
`(col*frame_width, row*frame_height)` under the row-major mapping
`i = row*cols + col`, and tiles beyond the frame list are left fully
transparent. -/
def assemble (framesL : List Img) (cfg : GridCfg) (fw fh : ℕ) : Img :=
  { width := cfg.cols * fw
    height := cfg.rows * fh
    pix := fun x y =>
      match framesL[(y / fh) * cfg.cols + (x / fw)]? with
      | some f => f.pix (x % fw) (y % fh)
      | none => 0 }

/-- C2: for an image of pixel size exactly `(cols*fw, rows*fh)`, assembling
the full sequence of sliced frames (`frame_count = cols*rows`) back onto the
same grid reproduces the original image pixel for pixel. -/
theorem assemble_slice_roundTrip (img : Img) (cfg : GridCfg) (fw fh : ℕ)
    (hc : 0 < cfg.cols) (hr : 0 < cfg.rows)
    (hW : img.width = cfg.cols * fw) (hH : img.height = cfg.rows * fh)
    (x y : ℕ) (hx : x < img.width) (hy : y < img.height) :
    (assemble (sliceFrames img cfg ((cfg.rows * cfg.cols : ℕ) : ℤ)) cfg fw fh).width
        = img.width ∧
    (assemble (sliceFrames img cfg ((cfg.rows * cfg.cols : ℕ) : ℤ)) cfg fw fh).height
        = img.height ∧
    (assemble (sliceFrames img cfg ((cfg.rows * cfg.cols : ℕ) : ℤ)) cfg fw fh).pix x y
        = img.pix x y := by
  have hxlt : x < fw * cfg.cols := by rw [mul_comm]; exact hW ▸ hx
  have hylt : y < fh * cfg.rows := by rw [mul_comm]; exact hH ▸ hy
  have hcc : x / fw < cfg.cols := Nat.div_lt_of_lt_mul hxlt
  have hrr : y / fh < cfg.rows := Nat.div_lt_of_lt_mul hylt
  have hilt : (y / fh) * cfg.cols + x / fw < cfg.rows * cfg.cols :=
    calc (y / fh) * cfg.cols + x / fw
        < (y / fh) * cfg.cols + cfg.cols := by omega
      _ = (y / fh + 1) * cfg.cols := by ring
      _ ≤ cfg.rows * cfg.cols := Nat.mul_le_mul_right _ (Nat.succ_le_of_lt hrr)
  have hmax : (maxFrames cfg ((cfg.rows * cfg.cols : ℕ) : ℤ)).toNat =
      cfg.rows * cfg.cols := by
    simp only [maxFrames]
    push_cast
    omega
  have hmod : ((y / fh) * cfg.cols + x / fw) % cfg.cols = x / fw := by
    rw [mul_comm, Nat.mul_add_mod, Nat.mod_eq_of_lt hcc]
  have hdiv : ((y / fh) * cfg.cols + x / fw) / cfg.cols = y / fh := by
    rw [mul_comm, Nat.mul_add_div hc, Nat.div_eq_of_lt hcc, Nat.add_zero]
  refine ⟨by rw [assemble, hW], by rw [assemble, hH], ?_⟩
  simp only [assemble, sliceFrames, List.getElem?_map]
  rw [extractFrames, List.getElem?_map,
    List.getElem?_range (by rw [hmax]; exact hilt)]
  simp only [Option.map_some']
  rw [extractFrameRect_of_dvd img.width img.height cfg _ hc hr
    ⟨fw, hW⟩ ⟨fh, hH⟩]
  simp only [cropAt, hmod, hdiv, hW, hH,
    Nat.mul_div_cancel_left _ hc, Nat.mul_div_cancel_left _ hr,
    Int.toNat_natCast]
  have hx' : x / fw * fw + x % fw = x := by
    rw [Nat.mul_comm]
    exact Nat.div_add_mod x fw
  have hy' : y / fh * fh + y % fh = y := by
    rw [Nat.mul_comm]
    exact Nat.div_add_mod y fh
  rw [hx', hy']

/-- Concrete instance of `assemble_slice_roundTrip`: a `4×2` image on a `2×1`
grid (frame size `2×2`), checked at pixel `(3, 1)`. -/
theorem assemble_slice_roundTrip_witness :
    (0 < 2 ∧ 0 < 1 ∧
      (Img.mk 4 2 fun u v => u + 10 * v).width = 2 * 2 ∧
      (Img.mk 4 2 fun u v => u + 10 * v).height = 1 * 2 ∧
      3 < (Img.mk 4 2 fun u v => u + 10 * v).width ∧
      1 < (Img.mk 4 2 fun u v => u + 10 * v).height) ∧
    (assemble (sliceFrames (Img.mk 4 2 fun u v => u + 10 * v) ⟨1, 2⟩
          ((1 * 2 : ℕ) : ℤ)) ⟨1, 2⟩ 2 2).pix 3 1 =
      (Img.mk 4 2 fun u v => u + 10 * v).pix 3 1 :=
  ⟨⟨by decide, by decide, rfl, rfl, by decide, by decide⟩,
    (assemble_slice_roundTrip (Img.mk 4 2 fun u v => u + 10 * v) ⟨1, 2⟩ 2 2
      (by decide) (by decide) rfl rfl 3 1
      (by decide) (by decide)).2.2⟩

/-- The model catalogue keys of `modelInfo`
(`AllModelsResults` / `AllModelsSpritesheetResults` components), in
declaration order. -/
def modelInfoIds : List String :=
  ["isnet-general-use", "u2net_human_seg", "u2net", "u2netp",
   "u2net_cloth_seg", "silueta"]

/-- The `availableModels` ids of the video page
(`frontend/src/app/video/page.tsx` lines 49–56), in declaration order. -/
def availableModelIds : List String :=
  ["isnet-general-use", "u2net_human_seg", "u2net", "u2netp",
   "u2net_cloth_seg", "silueta"]

/-- The closed six-element set of supported model identifiers, written from
the specification's words (§6) to be compared with the code's enumerations. -/
def specSupportedModelIds : List String :=
  ["isnet-general-use", "u2net_human_seg", "u2net", "u2netp",
   "u2net_cloth_seg", "silueta"]

/-- Modelled from the spec: the backend ModelDispatcher's default model set —
"default: all six supported identifiers" (§4.3).  The backend itself is not
among the shipped sources; the six identifiers are the frontend catalogue. -/
def defaultDispatchModelIds : List String := modelInfoIds

/-- C7: the model identifiers offered by the frontend catalogues and used by
the default all-models dispatch are exactly the spec's closed six-element
set, with no duplicates. -/
theorem supportedModels_closed_six :
    modelInfoIds = specSupportedModelIds ∧
    availableModelIds = specSupportedModelIds ∧
    defaultDispatchModelIds = specSupportedModelIds ∧
    specSupportedModelIds.length = 6 ∧
    specSupportedModelIds.Nodup :=
  ⟨rfl, rfl, rfl, rfl, by decide⟩

/-- `ModelResult` from `lib/api.ts` (the frontend API client):
`{ success: boolean; data?: string; size?: number; error?: string }`, the
optional fields embedded as `Option`.  The base64 image payload is
abstracted to a `ℕ` code. -/
structure ModelResult where
  success : Bool
  data : Option ℕ
  size : Option ℕ
  error : Option String
deriving Repr, DecidableEq

/-- The external segmentation capability of §6:
`process(image_bytes, model_id) -> image_bytes | raises`.  A call receives an
abstract frame payload and a model identifier and either returns processed
image bytes together with their byte size, or fails with a message. -/
abbrev SegCapability : Type := ℕ → String → Except String (ℕ × ℕ)

/-- Modelled from the spec: the backend ModelDispatcher's per-call wrapper
(§4.3, §7) — any failure raised by the external capability is caught at this
layer and converted to `ModelResult{success=false, error=msg}`; a successful
call populates the image data and size.  The backend is not among the
shipped sources. -/
def runModel (seg : SegCapability) (frame : ℕ) (m : String) : ModelResult :=
  match seg frame m with
  | .ok (img, sz) =>
      { success := true, data := some img, size := some sz, error := none }
  | .error e =>
      { success := false, data := none, size := none, error := some e }

/-- The requested (frame, model) units, ordered by frame then by model. -/
def dispatchPairs (framesL : List ℕ) (models : List String) :
    List (ℕ × String) :=
  framesL.flatMap fun f => models.map fun m => (f, m)

/-- Modelled from the spec: the backend ModelDispatcher (§4.3) invokes the
external segmentation capability once per (frame, model) pair and collects a
`ModelResult` for each, in deterministic insertion order, never aborting the
batch on a single failure. -/
def dispatch (seg : SegCapability) (framesL : List ℕ)
    (models : List String) : List ((ℕ × String) × ModelResult) :=
  framesL.flatMap fun f => models.map fun m => ((f, m), runModel seg f m)

/-- Whether the external capability fails on a given (frame, model) pair. -/
def segFails (seg : SegCapability) (p : ℕ × String) : Bool :=
  match seg p.1 p.2 with
  | .ok _ => false
  | .error _ => true

lemma dispatch_eq_map (seg : SegCapability) (framesL : List ℕ)
    (models : List String) :
    dispatch seg framesL models =
      (dispatchPairs framesL models).map fun p => (p, runModel seg p.1 p.2) := by
  induction framesL with
  | nil => rfl
  | cons f fs ih =>
    simp only [dispatch, dispatchPairs, List.flatMap_cons, List.map_append,
      List.map_map] at ih ⊢
    rw [ih]
    rfl

lemma dispatchPairs_length (framesL : List ℕ) (models : List String) :
    (dispatchPairs framesL models).length = framesL.length * models.length := by
  induction framesL with
  | nil => simp [dispatchPairs]
  | cons f fs ih =>
    simp only [dispatchPairs, List.flatMap_cons, List.length_append,
      List.length_map, List.length_cons] at ih ⊢
    rw [ih]
    ring

lemma runModel_success (seg : SegCapability) (p : ℕ × String) :
    (runModel seg p.1 p.2).success = !segFails seg p := by
  cases h : seg p.1 p.2 <;> simp [runModel, segFails, h]

lemma countP_not_add_countP (l : List ((ℕ × String) × ModelResult)) :
    l.countP (fun r => !r.2.success) + l.countP (fun r => r.2.success) =
      l.length := by
  induction l with
  | nil => rfl
  | cons a as ih =>
    by_cases h : a.2.success = true <;>
      simp [List.countP_cons, h, ← ih] <;> omega

/-- C3: a failure of the segmentation capability on a single (frame, model)
pair never aborts the sibling invocations — the output has an outcome for
every requested unit, and when exactly one pair fails, exactly one
`ModelResult` has `success = false` and the remaining
`frames*models - 1` all have `success = true`. -/
theorem dispatch_isolates_single_failure (seg : SegCapability)
    (framesL : List ℕ) (models : List String)
    (h1 : (dispatchPairs framesL models).countP (segFails seg) = 1) :
    (dispatch seg framesL models).map Prod.fst = dispatchPairs framesL models ∧
    (dispatch seg framesL models).length = framesL.length * models.length ∧
    (dispatch seg framesL models).countP (fun r => !r.2.success) = 1 ∧
    (dispatch seg framesL models).countP (fun r => r.2.success) =
      framesL.length * models.length - 1 := by
  have hkeys : (dispatch seg framesL models).map Prod.fst =
      dispatchPairs framesL models := by
    rw [dispatch_eq_map, List.map_map]
    exact List.map_id _
  have hlen : (dispatch seg framesL models).length =
      framesL.length * models.length := by
    rw [dispatch_eq_map, List.length_map, dispatchPairs_length]
  have hfail : (dispatch seg framesL models).countP (fun r => !r.2.success) =
      (dispatchPairs framesL models).countP (segFails seg) := by
    rw [dispatch_eq_map, List.countP_map]
    apply List.countP_congr
    intro p _
    simp [runModel_success]
  have hsum := countP_not_add_countP (dispatch seg framesL models)
  rw [hlen, hfail, h1] at hsum
  refine ⟨hkeys, hlen, by rw [hfail, h1], by omega⟩

/-- A capability that fails exactly on frame 3 with model `u2net`. -/
def segOneFailure : SegCapability := fun f m =>
  if f = 3 ∧ m = "u2net" then .error "model failure" else .ok (f + 100, 10)

/-- Concrete instance of `dispatch_isolates_single_failure`: 4 frames × the
six models, the capability failing only on `(3, u2net)` — one failed result,
23 successes, all 24 units reported. -/
theorem dispatch_isolates_single_failure_witness :
    (dispatchPairs [0, 1, 2, 3] modelInfoIds).countP (segFails segOneFailure)
        = 1 ∧
    ((dispatch segOneFailure [0, 1, 2, 3] modelInfoIds).map Prod.fst =
        dispatchPairs [0, 1, 2, 3] modelInfoIds ∧
      (dispatch segOneFailure [0, 1, 2, 3] modelInfoIds).length =
        [0, 1, 2, 3].length * modelInfoIds.length ∧
      (dispatch segOneFailure [0, 1, 2, 3] modelInfoIds).countP
          (fun r => !r.2.success) = 1 ∧
      (dispatch segOneFailure [0, 1, 2, 3] modelInfoIds).countP
          (fun r => r.2.success) =
        [0, 1, 2, 3].length * modelInfoIds.length - 1) :=
  ⟨by decide,
    dispatch_isolates_single_failure segOneFailure [0, 1, 2, 3] modelInfoIds
      (by decide)⟩

/-- C8: every `ModelResult` produced by the dispatcher is fully populated in
exactly one of two shapes — success with image data (and size) present and
no error, or failure with an error present and no image data. -/
theorem modelResult_two_shapes (seg : SegCapability) (framesL : List ℕ)
    (models : List String) (e : (ℕ × String) × ModelResult)
    (he : e ∈ dispatch seg framesL models) :
    (e.2.success = true →
      e.2.data.isSome ∧ e.2.size.isSome ∧ e.2.error = none) ∧
    (e.2.success = false →
      e.2.error.isSome ∧ e.2.data = none ∧ e.2.size = none) := by
  rw [dispatch_eq_map] at he
  obtain ⟨p, _, rfl⟩ := List.mem_map.1 he
  cases h : seg p.1 p.2 <;> simp [runModel, h]

/-- Concrete instance of `modelResult_two_shapes` at the failed unit of
`segOneFailure`. -/
theorem modelResult_two_shapes_witness :
    ((3, "u2net"),
        ({ success := false, data := none, size := none,
           error := some "model failure" } : ModelResult)) ∈
      dispatch segOneFailure [3] ["u2net", "silueta"] ∧
    ((((3, "u2net"),
        ({ success := false, data := none, size := none,
           error := some "model failure" } : ModelResult)) :
          (ℕ × String) × ModelResult).2.success = false →
      (Option.some "model failure").isSome ∧ (none : Option ℕ) = none ∧
        (none : Option ℕ) = none) :=
  ⟨by decide,
    (modelResult_two_shapes segOneFailure [3] ["u2net", "silueta"] _
      (by decide)).2⟩

/-- Modelled from the spec: `resolve_grid` lives in the FastAPI backend,
which is not among the shipped sources.  Per §4.1 resolution step 1, an
explicit `{cols}x{rows}` grid is validated with
`W % cols == 0 and H % rows == 0`; any violation is an `InvalidGridError`,
and on success the exact integral frame dimensions are returned. -/
def resolveGrid (W H cols rows : ℕ) : Except String (GridCfg × ℕ × ℕ) :=
  if cols = 0 ∨ rows = 0 then
    .error "InvalidGridError: grid must be positive"
  else if W % cols = 0 ∧ H % rows = 0 then
    .ok (⟨rows, cols⟩, W / cols, H / rows)
  else
    .error "InvalidGridError: sheet dimensions do not divide evenly"

/-- Whether grid resolution failed. -/
def isGridError (r : Except String (GridCfg × ℕ × ℕ)) : Bool :=
  match r with
  | .error _ => true
  | .ok _ => false

/-- C6: for any sheet `(W, H)` and explicit grid `(cols, rows)` with
`W % cols ≠ 0` or `H % rows ≠ 0`, grid resolution fails with a validation
error; and whenever it succeeds the returned frame dimensions are exact
(never silently truncated): `cols * fw = W` and `rows * fh = H`. -/
theorem resolveGrid_validates_divisibility (W H cols rows : ℕ)
    (h : W % cols ≠ 0 ∨ H % rows ≠ 0) :
    isGridError (resolveGrid W H cols rows) = true ∧
    ∀ g fw fh, resolveGrid W H cols rows = .ok (g, fw, fh) → False := by
  have herr : isGridError (resolveGrid W H cols rows) = true := by
    rw [resolveGrid]
    by_cases h0 : cols = 0 ∨ rows = 0
    · rw [if_pos h0]
      rfl
    · rw [if_neg h0, if_neg (by tauto)]
      rfl
  refine ⟨herr, fun g fw fh hok => ?_⟩
  rw [hok] at herr
  exact Bool.false_ne_true herr

/-- Concrete instance of `resolveGrid_validates_divisibility`: a `100×64`
sheet with grid `3×2` (100 is not divisible by 3) is rejected. -/
theorem resolveGrid_validates_divisibility_witness :
    (100 % 3 ≠ 0 ∨ 64 % 2 ≠ 0) ∧
    (isGridError (resolveGrid 100 64 3 2) = true ∧
      ∀ g fw fh, resolveGrid 100 64 3 2 = .ok (g, fw, fh) → False) :=
  ⟨by decide,
    resolveGrid_validates_divisibility 100 64 3 2 (by decide)⟩

/-- The video→GIF conversion configuration of the video page
(`frontend/src/app/video/page.tsx` lines 23–28): fps, optional duration, and
the pixel bounds `maxWidth`/`maxHeight`. -/
structure VideoToGifConfig where
  fps : ℕ
  duration : Option ℚ
  maxWidth : ℕ
  maxHeight : ℕ
deriving Repr, DecidableEq

/-- The analysis summary returned for a video
(`VideoAnalysisResponse.analysis` in `lib/api.ts`): source duration, fps,
pixel size and the recommended conversion parameters. -/
structure VideoAnalysis where
  duration : ℚ
  fps : ℕ
  width : ℕ
  height : ℕ
  total_frames : ℕ
  recommended_fps : ℕ
  recommended_duration : ℚ
  recommended_frames : ℕ
  file_size : ℕ

/-- The config update applied by `analyzeVideo`
(`frontend/src/app/video/page.tsx` lines 87–94):
`fps: recommended_fps, duration: recommended_duration,
maxWidth: Math.min(480, size[0]), maxHeight: Math.min(480, size[1])`. -/
def analyzeVideoConfigUpdate (prev : VideoToGifConfig) (a : VideoAnalysis) :
    VideoToGifConfig :=
  { prev with
    fps := a.recommended_fps
    duration := some a.recommended_duration
    maxWidth := min 480 a.width
    maxHeight := min 480 a.height }

/-- C9: for every analyzed video of source pixel size `(w, h)`, the applied
conversion bounds are `maxWidth = min(480, w)` and `maxHeight = min(480, h)`
— capped at 480 and never above the source dimensions (no upscaling). -/
theorem analyzeVideo_caps_dimensions (prev : VideoToGifConfig)
    (a : VideoAnalysis) :
    (analyzeVideoConfigUpdate prev a).maxWidth = min 480 a.width ∧
    (analyzeVideoConfigUpdate prev a).maxHeight = min 480 a.height ∧
    (analyzeVideoConfigUpdate prev a).maxWidth ≤ 480 ∧
    (analyzeVideoConfigUpdate prev a).maxHeight ≤ 480 ∧
    (analyzeVideoConfigUpdate prev a).maxWidth ≤ a.width ∧
    (analyzeVideoConfigUpdate prev a).maxHeight ≤ a.height :=
  ⟨rfl, rfl, Nat.min_le_left _ _, Nat.min_le_left _ _,
    Nat.min_le_right _ _, Nat.min_le_right _ _⟩

/-- One extracted frame as handled by the video page: its grid index and an
abstract payload standing for its base64 image data. -/
structure ExtractedFrame where
  index : ℕ
  data : ℕ
deriving Repr, DecidableEq

/-- The outcome of evaluating a piece of JavaScript: a value, or a thrown
exception carrying its message. -/
inductive JsOutcome (α : Type) where
  | ok (a : α)
  | thrown (e : String)
deriving Repr, DecidableEq

/-- A `const`/`let` binding slot.  A JavaScript block-scoped binding exists
from the top of its scope but stays uninitialized — in the temporal dead
zone — until its own declaration finishes evaluating its initializer. -/
inductive TdzBinding (α : Type) where
  | uninit
  | val (a : α)

/-- Reading an identifier that resolves to a block-scoped binding: while the
binding is still uninitialized this throws a `ReferenceError`. -/
def readBinding {α : Type} (n : String) : TdzBinding α → JsOutcome α
  | .uninit =>
      .thrown ("ReferenceError: Cannot access " ++ n ++
        " before initialization")
  | .val a => .ok a

/-- `Array.prototype.filter` with a callback that may throw: elements are
visited left to right and a thrown exception propagates immediately. -/
def jsFilter {α : Type} (f : α → JsOutcome Bool) : List α → JsOutcome (List α)
  | [] => .ok []
  | a :: as =>
    match f a with
    | .thrown e => .thrown e
    | .ok b =>
      match jsFilter f as with
      | .thrown e => .thrown e
      | .ok rest => .ok (if b then a :: rest else rest)

/-- The filter callback of `getSelectedFramesForReconstruction`
(`frontend/src/app/video/page.tsx` lines 478–486).  Lines 479–480 read the
`selectedFrames` and `individualProcessedFrames` React state maps; line 481,
`const showProcessed = showProcessed[frame.index]`, declares a
callback-scoped constant shadowing the `showProcessed` state of line 47, so
its initializer reads the new binding itself while it is still in its
temporal dead zone and throws.  On the now-unreachable line 485 the callback
would return a frame object (truthy) when the frame is selected — both
branches of the inner conditional pick an object — and `null` (falsy)
otherwise; truthiness is embedded as the `Bool` the filter consumes. -/
def selectedFramesCallback (selectedFrames : ℕ → Bool)
    (individualProcessedFrames : ℕ → Option ExtractedFrame)
    (frame : ExtractedFrame) : JsOutcome Bool :=
  let isSelected := selectedFrames frame.index
  let hasProcessed := individualProcessedFrames frame.index
  match readBinding "showProcessed"
      (TdzBinding.uninit : TdzBinding (ℕ → Bool)) with
  | .thrown e => .thrown e
  | .ok showProcessedLocal =>
      .ok (if isSelected then
            (if hasProcessed.isSome && showProcessedLocal frame.index
              then true else true)
          else false)

/-- `getSelectedFramesForReconstruction`
(`frontend/src/app/video/page.tsx` lines 477–487):
`extractedFrames.filter(callback).filter(Boolean)`.  The trailing
`.filter(Boolean)` keeps the truthy elements; since every element of a
non-thrown result is a frame object (truthy), it is the identity there. -/
def getSelectedFramesForReconstruction
    (extractedFrames : List ExtractedFrame) (selectedFrames : ℕ → Bool)
    (individualProcessedFrames : ℕ → Option ExtractedFrame) :
    JsOutcome (List ExtractedFrame) :=
  match jsFilter
      (selectedFramesCallback selectedFrames individualProcessedFrames)
      extractedFrames with
  | .thrown e => .thrown e
  | .ok l => .ok l

/-- The `processingMode` state of the video page (line 42). -/
inductive ProcessingMode where
  | all
  | individual
deriving Repr, DecidableEq

/-- The head of `reconstructSpritesheet`
(`frontend/src/app/video/page.tsx` lines 489–509): pick the frame list —
`getSelectedFramesForReconstruction()` in individual mode, the
batch-processed list otherwise — return early when it is empty, and
otherwise send the reconstruction request.  The call happens before the
`try` block, so an exception it throws propagates out and no request is
sent.  The `ok` payload records whether a request is sent. -/
def reconstructSpritesheetSendsRequest (mode : ProcessingMode)
    (extractedFrames processedFrames : List ExtractedFrame)
    (selectedFrames : ℕ → Bool)
    (individualProcessedFrames : ℕ → Option ExtractedFrame) :
    JsOutcome Bool :=
  let framesToUse :=
    match mode with
    | .individual =>
        getSelectedFramesForReconstruction extractedFrames selectedFrames
          individualProcessedFrames
    | .all => .ok processedFrames
  match framesToUse with
  | .thrown e => .thrown e
  | .ok l => .ok (decide (l ≠ []))

/-- C10: whenever at least one frame has been extracted, evaluating
`getSelectedFramesForReconstruction` throws a `ReferenceError` (the local
`showProcessed` is read inside its own initializer), so individual-mode
spritesheet reconstruction always takes the error path and never sends a
reconstruction request. -/
theorem getSelectedFrames_always_throws
    (extractedFrames processedFrames : List ExtractedFrame)
    (selectedFrames : ℕ → Bool)
    (individualProcessedFrames : ℕ → Option ExtractedFrame)
    (h : extractedFrames ≠ []) :
    getSelectedFramesForReconstruction extractedFrames selectedFrames
        individualProcessedFrames =
      .thrown
        "ReferenceError: Cannot access showProcessed before initialization" ∧
    reconstructSpritesheetSendsRequest .individual extractedFrames
        processedFrames selectedFrames individualProcessedFrames =
      .thrown
        "ReferenceError: Cannot access showProcessed before initialization" := by
  match extractedFrames, h with
  | f :: fs, _ => exact ⟨rfl, rfl⟩

/-- Concrete instance of `getSelectedFrames_always_throws`: one extracted
frame, all frames selected, nothing processed — the reconstruction path
throws and no request is sent. -/
theorem getSelectedFrames_always_throws_witness :
    ([⟨0, 0⟩] : List ExtractedFrame) ≠ [] ∧
    (getSelectedFramesForReconstruction [⟨0, 0⟩] (fun _ => true)
          (fun _ => none) =
        .thrown
          "ReferenceError: Cannot access showProcessed before initialization" ∧
      reconstructSpritesheetSendsRequest .individual [⟨0, 0⟩] []
          (fun _ => true) (fun _ => none) =
        .thrown
          "ReferenceError: Cannot access showProcessed before initialization") :=
  ⟨by decide,
    getSelectedFrames_always_throws [⟨0, 0⟩] [] (fun _ => true)
      (fun _ => none) (by decide)⟩
